import Mathlib

/-
Verification of the user/task management backend (src/main.py, src/db.py).

The document store (MongoDB via motor) is modelled as a list of documents,
a document being an association list from string keys to BSON values.
Handlers are embedded as pure functions from their request data and the
store state to an HTTP outcome (an Except of an HTTP error) together with
the store state after the single store write the handler performs.
Python dictionary indexing d[k] on an assumed-present key is totalised
with a dummy default value; the claims only evaluate it on documents that
carry the key.
-/

set_option autoImplicit false

namespace PyBack

/-- BSON values as they occur in this application. bStr models a Python
str, bOid a bson ObjectId (its identity abstracted to a Nat), bBool a
bool. bHash models a bcrypt digest string produced by passlib: modelled
from the spec (section 4.1), a digest is a salted one-way value, distinct
from every plaintext string, whose verification data is the salt and the
hashed plaintext. Python equality between values of different shapes
(for example a str and an ObjectId) is False, which the derived
decidable equality reproduces. -/
inductive BVal where
  | bStr (s : String)
  | bOid (o : Nat)
  | bBool (b : Bool)
  | bHash (salt : Nat) (plain : String)
  deriving DecidableEq, Repr

/-- The rendering Python str() gives each value; on ObjectId it yields the
hex string of the id, modelled here as the decimal rendering of the id
number (what matters is that it is a string determined by the id). -/
def bvalStr : BVal → String
  | .bStr s => s
  | .bOid o => toString o
  | .bBool b => if b then "True" else "False"
  | .bHash salt plain => "$2b$" ++ toString salt ++ "$" ++ plain

/-- A MongoDB document: an association list from field names to values. -/
abbrev Doc := List (String × BVal)

/-- Python d.get(k): the value of the first entry with key k, if any. -/
def Doc.get (d : Doc) (k : String) : Option BVal :=
  (d.find? (fun p => decide (p.1 = k))).map (·.2)

/-- Python d[k] on an assumed-present key, totalised with a dummy value. -/
def Doc.getV (d : Doc) (k : String) : BVal :=
  (d.get k).getD (BVal.bStr "")

/-- Setting one field, as the store $set does per field: overwrite the
entry when the key is present, append it otherwise. -/
def Doc.setField (d : Doc) (k : String) (v : BVal) : Doc :=
  if d.any (fun p => decide (p.1 = k)) then
    d.map (fun p => if p.1 = k then (k, v) else p)
  else
    d ++ [(k, v)]

/-- The $set update operator: apply every field of the update document. -/
def Doc.applySet (d : Doc) (upd : Doc) : Doc :=
  upd.foldl (fun acc p => acc.setField p.1 p.2) d

/-- A document matches an equality filter when every filter entry equals
the corresponding document field. -/
def matchesFilter (d : Doc) (f : Doc) : Bool :=
  f.all (fun p => decide (d.get p.1 = some p.2))

/-- find_one: the first document of the collection matching the filter. -/
def findOne (coll : List Doc) (f : Doc) : Option Doc :=
  coll.find? (fun d => matchesFilter d f)

/-- update_one with a $set update: rewrite the first matching document;
returns the new collection and matched_count (zero or one). -/
def updateOne (coll : List Doc) (f : Doc) (upd : Doc) : List Doc × Nat :=
  match coll with
  | [] => ([], 0)
  | d :: rest =>
    if matchesFilter d f then (d.applySet upd :: rest, 1)
    else
      let r := updateOne rest f upd
      (d :: r.1, r.2)

/-- delete_one: remove the first matching document; returns the new
collection and deleted_count (zero or one). -/
def deleteOne (coll : List Doc) (f : Doc) : List Doc × Nat :=
  match coll with
  | [] => ([], 0)
  | d :: rest =>
    if matchesFilter d f then (rest, 1)
    else
      let r := deleteOne rest f
      (d :: r.1, r.2)

/-- insert_one for task documents: append the document, the store
assigning the fresh ObjectId genId as its _id; returns the new collection
and the inserted_id. -/
def insertOne (coll : List Doc) (d : Doc) (genId : Nat) : List Doc × Nat :=
  (coll ++ [d.setField "_id" (BVal.bOid genId)], genId)

/-- An HTTPException outcome: status code, detail message, headers. -/
structure HErr where
  status : Nat
  detail : String
  headers : List (String × String)
  deriving DecidableEq, Repr

/-- The str() rendering of a starlette HTTPException: "status: detail". -/
def herrStr (e : HErr) : String :=
  toString e.status ++ ": " ++ e.detail

/-- The task handlers wrap their whole body in try/except Exception,
re-raising every exception - the handler's own HTTPExceptions included,
since HTTPException subclasses Exception - as a 500 whose detail is the
str() of the caught exception. -/
def catchAll {α : Type} (r : Except HErr α) : Except HErr α :=
  match r with
  | .ok a => .ok a
  | .error e => .error ⟨500, herrStr e, []⟩

/-- The pydantic User request model (name, email, password, role,
isActived defaulting to True). -/
structure User where
  name : String
  email : String
  password : String
  role : String
  isActived : Bool := true
  deriving DecidableEq, Repr

/-- body.dict() for the User model, in field order. -/
def User.dict (u : User) : Doc :=
  [("name", BVal.bStr u.name), ("email", BVal.bStr u.email),
   ("password", BVal.bStr u.password), ("role", BVal.bStr u.role),
   ("isActived", BVal.bBool u.isActived)]

/-- The pydantic Task request model. -/
structure Task where
  title : String
  description : String
  user_id : String
  completed : Bool := false
  deriving DecidableEq, Repr

/-- task.dict() for the Task model, in field order. -/
def Task.dict (t : Task) : Doc :=
  [("title", BVal.bStr t.title), ("description", BVal.bStr t.description),
   ("user_id", BVal.bStr t.user_id), ("completed", BVal.bBool t.completed)]

/-- Modelled from the spec (section 4.1): passlib bcrypt hashing is a
salted one-way digest; the salt argument models the salt drawn at hashing
time (the source of the non-deterministic output), and the resulting
digest value is distinct from every plaintext string. The Python function
returns the digest as a str; here the digest is the bHash value. -/
def hash_password (salt : Nat) (password : String) : BVal :=
  BVal.bHash salt password

/-- Modelled from the spec (section 4.1): passlib verification recomputes
the digest with the embedded salt and compares; a malformed stored value
(anything that is not a digest) fails closed. The second argument is the
stored password field value. -/
def verify_password (plain_password : String) (hashed_password : BVal) : Bool :=
  match hashed_password with
  | .bHash _ p => plain_password = p
  | _ => false

/-- Modelled from the spec (section 4.2): a jose JWT, reduced to the
claims the program uses. sub is the value the payload carries under
"sub" (absent when none), exp the absolute expiry instant, and intact
records that the signature is valid and the payload untampered. -/
structure JoseToken where
  sub : Option BVal
  exp : Nat
  intact : Bool
  deriving DecidableEq, Repr

/-- Modelled from the spec (section 4.2): the structured Invalid reasons
of token verification. -/
inductive JWTError where
  | expired
  | invalid
  deriving DecidableEq, Repr

/-- Modelled from the spec (section 4.2): jose jwt.decode validates the
signature, rejects tampered payloads, and checks now against expiry -
verification succeeds until now is at least the expiry instant, after
which it deterministically fails with expired. On success it returns the
payload. -/
def jwt_decode (t : JoseToken) (now : Nat) : Except JWTError (Option BVal × Nat) :=
  if ¬ t.intact then .error .invalid
  else if t.exp ≤ now then .error .expired
  else .ok (t.sub, t.exp)

/-- ACCESS_TOKEN_EXPIRE_MINUTES from the source, in seconds. -/
def ACCESS_TOKEN_EXPIRE : Nat := 30 * 60

/-- create_access_token: copy the data (reduced to its "sub" entry), set
the expiry to now plus the given delta (defaulting to 15 minutes), and
sign; times are in seconds. -/
def create_access_token (data : Option BVal) (now : Nat) (expires_delta : Option Nat) : JoseToken :=
  { sub := data, exp := now + expires_delta.getD (15 * 60), intact := true }

/-- The credentials_exception of get_current_user: a 401 with a uniform
message and the bearer hint header. -/
def credentials_exception : HErr :=
  ⟨401, "Invalid or expired token", [("WWW-Authenticate", "Bearer")]⟩

/-- get_current_user: decode the bearer token (any JWTError yields the
credentials_exception), read the sub claim (absence yields the same
exception), and look the user up by that email (absence again yields the
same exception). -/
def get_current_user (token : JoseToken) (now : Nat) (users : List Doc) : Except HErr Doc :=
  match jwt_decode token now with
  | .error _ => .error credentials_exception
  | .ok payload =>
    match payload.1 with
    | none => .error credentials_exception
    | some email =>
      match findOne users [("email", email)] with
      | none => .error credentials_exception
      | some user => .ok user

/-- check_role: the inner role_checker, given the resolved user. -/
def check_role (required_roles : List String) (user : Doc) : Except HErr Doc :=
  if required_roles.any (fun r => decide (user.getV "role" = BVal.bStr r)) then .ok user
  else .error ⟨403, "Access forbidden", []⟩

/-- login_for_access_token (POST /token): look the user up by email,
verify the password against the stored hash, and issue a 30 minute token
whose sub is the stored email value. -/
def login_for_access_token (username password : String) (users : List Doc) (now : Nat) :
    Except HErr (JoseToken × String) :=
  match findOne users [("email", BVal.bStr username)] with
  | none => .error ⟨401, "Incorrect email or password", []⟩
  | some user =>
    if ¬ verify_password password (user.getV "password") then
      .error ⟨401, "Incorrect email or password", []⟩
    else
      .ok (create_access_token (some (user.getV "email")) now (some ACCESS_TOKEN_EXPIRE), "bearer")

/-- create_user (POST /users): reject an existing email with 400,
otherwise hash the password, assign a fresh ObjectId and insert. Returns
the created document and the new users collection. -/
def create_user (body : User) (salt : Nat) (newId : Nat) (users : List Doc) :
    Except HErr Doc × List Doc :=
  match findOne users [("email", BVal.bStr body.email)] with
  | some _ => (.error ⟨400, "Email already exists", []⟩, users)
  | none =>
    let new_user := (User.dict body).setField "password" (hash_password salt body.password)
    let new_user := new_user ++ [("_id", BVal.bOid newId)]
    (.ok new_user, users ++ [new_user])

/-- read_users_me (GET /users/me): echo the authenticated user's email
and name. -/
def read_users_me (current_user : Doc) : BVal × BVal :=
  (current_user.getV "email", current_user.getV "name")

/-- The full GET /users/me route: resolve the bearer token, then run the
handler. -/
def route_users_me (token : JoseToken) (now : Nat) (users : List Doc) :
    Except HErr (BVal × BVal) :=
  match get_current_user token now users with
  | .error e => .error e
  | .ok u => .ok (read_users_me u)

/-- update_user (PUT /users/{id}): look the user up by id (404 when
absent), allow only the owner (matching email) or an admin (403
otherwise), then apply the request body verbatim as an unrestricted $set.
The path parameter is the already parsed ObjectId. -/
def update_user (user_id : Nat) (update_data : Doc) (current_user : Doc) (users : List Doc) :
    Except HErr String × List Doc :=
  match findOne users [("_id", BVal.bOid user_id)] with
  | none => (.error ⟨404, "User not found", []⟩, users)
  | some user =>
    if current_user.getV "email" ≠ user.getV "email" ∧
        current_user.getV "role" ≠ BVal.bStr "admin" then
      (.error ⟨403, "Not authorized", []⟩, users)
    else
      (.ok "User updated successfully", (updateOne users [("_id", BVal.bOid user_id)] update_data).1)

/-- deactivate_user (PATCH /users/{id}/deactivate): the two store
calls are separate awaits, so each reads its own store snapshot (users1
at the find_one, users2 at the update_one); a concurrent writer may land
between them. Look the user up (404 when absent), allow only the owner or
an admin, set isActived to False, and turn a zero matched_count into a
500 "Failed to deactivate user". -/
def deactivate_user (user_id : Nat) (current_user : Doc) (users1 users2 : List Doc) :
    Except HErr String × List Doc :=
  match findOne users1 [("_id", BVal.bOid user_id)] with
  | none => (.error ⟨404, "User not found", []⟩, users2)
  | some user =>
    if current_user.getV "email" ≠ user.getV "email" ∧
        current_user.getV "role" ≠ BVal.bStr "admin" then
      (.error ⟨403, "Not authorized to deactivate this user", []⟩, users2)
    else
      let result := updateOne users2 [("_id", BVal.bOid user_id)] [("isActived", BVal.bBool false)]
      if result.2 = 0 then
        (.error ⟨500, "Failed to deactivate user", []⟩, result.1)
      else
        (.ok "User is Deactivated", result.1)

/-- delete_user (DELETE /users/{id}): admin only (403 otherwise), then
delete_one, turning a zero deleted_count into a 404. -/
def delete_user (user_id : Nat) (current_user : Doc) (users : List Doc) :
    Except HErr String × List Doc :=
  if current_user.getV "role" ≠ BVal.bStr "admin" then
    (.error ⟨403, "Not authorized to delete this user", []⟩, users)
  else
    let result := deleteOne users [("_id", BVal.bOid user_id)]
    if result.2 = 0 then (.error ⟨404, "User not found", []⟩, result.1)
    else (.ok "User deleted successfully", result.1)

/-- The body of create_task (POST /tasks), before the catch-all: reject a
body whose user_id differs from str(current_user[_id]) with 403, then
insert the task. -/
def create_task_body (task : Task) (current_user : Doc) (tasks : List Doc) (genId : Nat) :
    Except HErr (String × String) × List Doc :=
  if task.user_id ≠ bvalStr (current_user.getV "_id") then
    (.error ⟨403, "Not authorized to create task for this user", []⟩, tasks)
  else
    let inserted := insertOne tasks (Task.dict task) genId
    (.ok ("Task created successfully", toString inserted.2), inserted.1)

/-- create_task with its try/except Exception wrapper, which re-raises
the body's own HTTPExceptions as 500. -/
def create_task (task : Task) (current_user : Doc) (tasks : List Doc) (genId : Nat) :
    Except HErr (String × String) × List Doc :=
  let r := create_task_body task current_user tasks genId
  (catchAll r.1, r.2)

/-- get_task (GET /tasks/{id}): a single find_one whose filter carries
both the task id and user_id equal to str(current_user[_id]); a miss is a
404 "Task not found or not authorized". On a hit the _id and user_id
fields are re-rendered as strings for the JSON response. The path
parameter is the already parsed ObjectId (a malformed id string is
rejected with 400 before this point). -/
def get_task (task_id : Nat) (current_user : Doc) (tasks : List Doc) : Except HErr Doc :=
  match findOne tasks [("_id", BVal.bOid task_id),
      ("user_id", BVal.bStr (bvalStr (current_user.getV "_id")))] with
  | none => .error ⟨404, "Task not found or not authorized", []⟩
  | some task =>
    let task := task.setField "_id" (BVal.bStr (bvalStr (task.getV "_id")))
    .ok (task.setField "user_id" (BVal.bStr (bvalStr (task.getV "user_id"))))

/-- The body of update_task (PUT /tasks/{id}), before the catch-all: look
the task up by id (404 when absent), compare the stored user_id value
against current_user[_id] raw (403 when unequal), then $set the body. -/
def update_task_body (task_id : Nat) (updated_task : Doc) (current_user : Doc)
    (tasks : List Doc) : Except HErr String × List Doc :=
  match findOne tasks [("_id", BVal.bOid task_id)] with
  | none => (.error ⟨404, "Task not found", []⟩, tasks)
  | some task =>
    if task.getV "user_id" ≠ current_user.getV "_id" then
      (.error ⟨403, "Not authorized to update this task", []⟩, tasks)
    else
      (.ok "Task updated", (updateOne tasks [("_id", BVal.bOid task_id)] updated_task).1)

/-- update_task with its try/except Exception wrapper. -/
def update_task (task_id : Nat) (updated_task : Doc) (current_user : Doc) (tasks : List Doc) :
    Except HErr String × List Doc :=
  let r := update_task_body task_id updated_task current_user tasks
  (catchAll r.1, r.2)

/-- The body of complete_task (PATCH /tasks/{id}/complete), before
the catch-all: same lookup and raw ownership comparison as update_task,
then $set status to completed. -/
def complete_task_body (task_id : Nat) (current_user : Doc) (tasks : List Doc) :
    Except HErr String × List Doc :=
  match findOne tasks [("_id", BVal.bOid task_id)] with
  | none => (.error ⟨404, "Task not found", []⟩, tasks)
  | some task =>
    if task.getV "user_id" ≠ current_user.getV "_id" then
      (.error ⟨403, "Not authorized to complete this task", []⟩, tasks)
    else
      (.ok "Task marked as completed",
       (updateOne tasks [("_id", BVal.bOid task_id)] [("status", BVal.bStr "completed")]).1)

/-- complete_task with its try/except Exception wrapper. -/
def complete_task (task_id : Nat) (current_user : Doc) (tasks : List Doc) :
    Except HErr String × List Doc :=
  let r := complete_task_body task_id current_user tasks
  (catchAll r.1, r.2)

/-- The body of delete_task (DELETE /tasks/{id}), before the catch-all:
look the task up by id (404 when absent), compare the stored user_id
value against current_user[_id] raw (403 when unequal), then delete_one. -/
def delete_task_body (task_id : Nat) (current_user : Doc) (tasks : List Doc) :
    Except HErr String × List Doc :=
  match findOne tasks [("_id", BVal.bOid task_id)] with
  | none => (.error ⟨404, "Task not found", []⟩, tasks)
  | some task =>
    if task.getV "user_id" ≠ current_user.getV "_id" then
      (.error ⟨403, "Not authorized to delete this task", []⟩, tasks)
    else
      (.ok "Task deleted", (deleteOne tasks [("_id", BVal.bOid task_id)]).1)

/-- delete_task with its try/except Exception wrapper. -/
def delete_task (task_id : Nat) (current_user : Doc) (tasks : List Doc) :
    Except HErr String × List Doc :=
  let r := delete_task_body task_id current_user tasks
  (catchAll r.1, r.2)

/-- The PUT /tasks/{id} route: the check_role dependency (admin or
editor) runs before the handler, outside its try block. -/
def route_update_task (task_id : Nat) (updated_task : Doc) (current_user : Doc)
    (tasks : List Doc) : Except HErr String × List Doc :=
  match check_role ["admin", "editor"] current_user with
  | .error e => (.error e, tasks)
  | .ok u => update_task task_id updated_task u tasks

/-- The DELETE /tasks/{id} route: the check_role dependency (admin only)
runs before the handler, outside its try block. -/
def route_delete_task (task_id : Nat) (current_user : Doc) (tasks : List Doc) :
    Except HErr String × List Doc :=
  match check_role ["admin"] current_user with
  | .error e => (.error e, tasks)
  | .ok u => delete_task task_id u tasks

/-- Field lookup on the empty document. -/
theorem Doc.get_nil (k : String) : Doc.get [] k = none := rfl

/-- Field lookup steps through the head entry. -/
theorem Doc.get_cons (p : String × BVal) (d : Doc) (k : String) :
    Doc.get (p :: d) k = if p.1 = k then some p.2 else Doc.get d k := by
  by_cases h : p.1 = k <;> simp [Doc.get, List.find?_cons, h]

/-- Field lookup over an append scans the left part first. -/
theorem Doc.get_append (l1 l2 : Doc) (k : String) :
    Doc.get (l1 ++ l2) k =
      match Doc.get l1 k with
      | some v => some v
      | none => Doc.get l2 k := by
  induction l1 with
  | nil => simp [Doc.get_nil]
  | cons p rest ih =>
    by_cases h : p.1 = k <;> simp [Doc.get_cons, h, ih]

/-- A document none of whose keys is k has no k field. -/
theorem Doc.get_eq_none (d : Doc) (k : String) (h : ∀ p ∈ d, p.1 ≠ k) :
    Doc.get d k = none := by
  induction d with
  | nil => rfl
  | cons p rest ih =>
    have hp := h p (by simp)
    rw [Doc.get_cons]
    simp [hp]
    exact ih (fun q hq => h q (by simp [hq]))

/-- Setting a field makes that field hold the new value. -/
theorem Doc.get_setField_self (d : Doc) (k : String) (v : BVal) :
    (Doc.setField d k v).get k = some v := by
  unfold Doc.setField
  split
  case isTrue h =>
    induction d with
    | nil => simp at h
    | cons p rest ih =>
      by_cases hp : p.1 = k
      · simp [hp, Doc.get_cons]
      · simp only [List.map_cons, if_neg hp, Doc.get_cons]
        exact ih (by simpa [hp] using h)
  case isFalse h =>
    rw [Doc.get_append]
    have hd : Doc.get d k = none := by
      refine Doc.get_eq_none d k (fun p hp => ?_)
      intro he
      exact h (List.any_eq_true.mpr ⟨p, hp, by simp [he]⟩)
    simp [hd, Doc.get_cons]

/-- Overwriting every entry with key k leaves every other field lookup
unchanged. -/
theorem Doc.get_map_replace (d : Doc) (k : String) (v : BVal) (q : String) (h : q ≠ k) :
    Doc.get (d.map (fun p => if p.1 = k then (k, v) else p)) q = Doc.get d q := by
  induction d with
  | nil => rfl
  | cons p rest ih =>
    by_cases hp : p.1 = k
    · rw [List.map_cons, if_pos hp, Doc.get_cons, Doc.get_cons]
      rw [if_neg (fun he : k = q => h he.symm)]
      rw [if_neg (fun he : p.1 = q => h (hp ▸ he).symm)]
      exact ih
    · rw [List.map_cons, if_neg hp, Doc.get_cons, Doc.get_cons, ih]

/-- Setting a field leaves every other field unchanged. -/
theorem Doc.get_setField_other (d : Doc) (k : String) (v : BVal) (q : String) (h : q ≠ k) :
    (Doc.setField d k v).get q = Doc.get d q := by
  unfold Doc.setField
  split
  · exact Doc.get_map_replace d k v q h
  · rw [Doc.get_append]
    cases hd : Doc.get d q with
    | some v2 => simp
    | none =>
      rw [Doc.get_cons, if_neg (fun he : k = q => h he.symm)]
      rfl

/-- Applying an empty $set changes nothing. -/
theorem Doc.applySet_nil (d : Doc) : Doc.applySet d [] = d := rfl

/-- Applying a $set one entry at a time. -/
theorem Doc.applySet_cons (d : Doc) (p : String × BVal) (upd : Doc) :
    Doc.applySet d (p :: upd) = Doc.applySet (d.setField p.1 p.2) upd := rfl

/-- After a $set with pairwise distinct update keys, a field holds the
update value when the update mentions it and its old value otherwise. -/
theorem Doc.get_applySet (d : Doc) (upd : Doc) (k : String)
    (h : (upd.map Prod.fst).Nodup) :
    (Doc.applySet d upd).get k =
      match Doc.get upd k with
      | some v => some v
      | none => Doc.get d k := by
  induction upd generalizing d with
  | nil => simp [Doc.applySet_nil, Doc.get_nil]
  | cons p rest ih =>
    have hnd : (rest.map Prod.fst).Nodup := (List.nodup_cons.mp h).2
    have hnm : p.1 ∉ rest.map Prod.fst := (List.nodup_cons.mp h).1
    rw [Doc.applySet_cons, ih _ hnd, Doc.get_cons]
    by_cases hk : p.1 = k
    · subst hk
      have hr : Doc.get rest p.1 = none := by
        refine Doc.get_eq_none rest p.1 (fun q hq he => ?_)
        exact hnm (List.mem_map.mpr ⟨q, hq, he⟩)
      simp [hr, Doc.get_setField_self]
    · cases hrest : Doc.get rest k with
      | some v => simp [hk]
      | none => simp [hk, Doc.get_setField_other d p.1 p.2 k (fun he => hk he.symm)]

/-- find_one on the empty collection. -/
theorem findOne_nil (f : Doc) : findOne [] f = none := rfl

/-- find_one steps through the head document. -/
theorem findOne_cons (d : Doc) (coll : List Doc) (f : Doc) :
    findOne (d :: coll) f = if matchesFilter d f then some d else findOne coll f := by
  by_cases h : matchesFilter d f <;> simp [findOne, List.find?_cons, h]

/-- find_one over an append scans the left part first. -/
theorem findOne_append (l1 l2 : List Doc) (f : Doc) :
    findOne (l1 ++ l2) f =
      match findOne l1 f with
      | some d => some d
      | none => findOne l2 f := by
  induction l1 with
  | nil => simp [findOne_nil]
  | cons d rest ih =>
    by_cases h : matchesFilter d f <;> simp [findOne_cons, h, ih]

/-- find_one misses when no document matches the filter. -/
theorem findOne_eq_none (coll : List Doc) (f : Doc)
    (h : ∀ d ∈ coll, matchesFilter d f = false) : findOne coll f = none := by
  induction coll with
  | nil => rfl
  | cons d rest ih =>
    rw [findOne_cons, if_neg (by simp [h d (by simp)])]
    exact ih (fun q hq => h q (by simp [hq]))

/-- A filter with one condition matches exactly when the field equals the
condition value. -/
theorem matchesFilter_single (d : Doc) (k : String) (v : BVal) :
    matchesFilter d [(k, v)] = decide (Doc.get d k = some v) := by
  simp [matchesFilter]

/-- A filter with two conditions matches exactly when both fields equal
their condition values. -/
theorem matchesFilter_pair (d : Doc) (k1 k2 : String) (v1 v2 : BVal) :
    matchesFilter d [(k1, v1), (k2, v2)] =
      (decide (Doc.get d k1 = some v1) && decide (Doc.get d k2 = some v2)) := by
  simp [matchesFilter]

/-- update_one steps through the head document. -/
theorem updateOne_cons (d : Doc) (coll : List Doc) (f upd : Doc) :
    updateOne (d :: coll) f upd =
      if matchesFilter d f then (d.applySet upd :: coll, 1)
      else (d :: (updateOne coll f upd).1, (updateOne coll f upd).2) := by
  by_cases h : matchesFilter d f <;> simp [updateOne, h]

/-- update_one skips an unmatched left part. -/
theorem updateOne_skip (l1 l2 : List Doc) (f upd : Doc)
    (h : ∀ d ∈ l1, matchesFilter d f = false) :
    updateOne (l1 ++ l2) f upd =
      (l1 ++ (updateOne l2 f upd).1, (updateOne l2 f upd).2) := by
  induction l1 with
  | nil => simp
  | cons d rest ih =>
    rw [List.cons_append, updateOne_cons, if_neg (by simp [h d (by simp)])]
    rw [ih (fun q hq => h q (by simp [hq]))]
    rfl

/-- update_one on a collection with no match leaves it unchanged and
reports matched_count zero. -/
theorem updateOne_none (coll : List Doc) (f upd : Doc)
    (h : ∀ d ∈ coll, matchesFilter d f = false) : updateOne coll f upd = (coll, 0) := by
  induction coll with
  | nil => rfl
  | cons d rest ih =>
    rw [updateOne_cons, if_neg (by simp [h d (by simp)])]
    rw [ih (fun q hq => h q (by simp [hq]))]

/-- delete_one steps through the head document. -/
theorem deleteOne_cons (d : Doc) (coll : List Doc) (f : Doc) :
    deleteOne (d :: coll) f =
      if matchesFilter d f then (coll, 1)
      else (d :: (deleteOne coll f).1, (deleteOne coll f).2) := by
  by_cases h : matchesFilter d f <;> simp [deleteOne, h]

/-- delete_one on a collection with no match leaves it unchanged and
reports deleted_count zero. -/
theorem deleteOne_none (coll : List Doc) (f : Doc)
    (h : ∀ d ∈ coll, matchesFilter d f = false) : deleteOne coll f = (coll, 0) := by
  induction coll with
  | nil => rfl
  | cons d rest ih =>
    rw [deleteOne_cons, if_neg (by simp [h d (by simp)])]
    rw [ih (fun q hq => h q (by simp [hq]))]

/-- C1: the self-service override fails on the code. The actor below is
the owner of the task in the persisted representation - its _id is
ObjectId 1 and the task's user_id is "1", the str of that ObjectId,
exactly what create_task persists - and holds the admin role, so every
role dependency passes. Still PUT /tasks/5, PATCH /tasks/5/complete and
DELETE /tasks/5 all deny the operation: the handlers compare the stored
user_id string against the ObjectId raw, which never holds, and the
resulting 403 is re-raised as a 500 by the handlers' catch-all. The store
is left unchanged. -/
theorem C1_owner_task_ops_denied :
    route_update_task 5 [("title", BVal.bStr "new")]
        [("_id", BVal.bOid 1), ("name", BVal.bStr "Alice"),
         ("email", BVal.bStr "alice@example.com"), ("password", BVal.bHash 0 "pw"),
         ("role", BVal.bStr "admin"), ("isActived", BVal.bBool true)]
        [[("title", BVal.bStr "t"), ("description", BVal.bStr "d"),
          ("user_id", BVal.bStr "1"), ("completed", BVal.bBool false),
          ("_id", BVal.bOid 5)]] =
      (.error ⟨500, "403: Not authorized to update this task", []⟩,
       [[("title", BVal.bStr "t"), ("description", BVal.bStr "d"),
         ("user_id", BVal.bStr "1"), ("completed", BVal.bBool false),
         ("_id", BVal.bOid 5)]]) ∧
    complete_task 5
        [("_id", BVal.bOid 1), ("name", BVal.bStr "Alice"),
         ("email", BVal.bStr "alice@example.com"), ("password", BVal.bHash 0 "pw"),
         ("role", BVal.bStr "admin"), ("isActived", BVal.bBool true)]
        [[("title", BVal.bStr "t"), ("description", BVal.bStr "d"),
          ("user_id", BVal.bStr "1"), ("completed", BVal.bBool false),
          ("_id", BVal.bOid 5)]] =
      (.error ⟨500, "403: Not authorized to complete this task", []⟩,
       [[("title", BVal.bStr "t"), ("description", BVal.bStr "d"),
         ("user_id", BVal.bStr "1"), ("completed", BVal.bBool false),
         ("_id", BVal.bOid 5)]]) ∧
    route_delete_task 5
        [("_id", BVal.bOid 1), ("name", BVal.bStr "Alice"),
         ("email", BVal.bStr "alice@example.com"), ("password", BVal.bHash 0 "pw"),
         ("role", BVal.bStr "admin"), ("isActived", BVal.bBool true)]
        [[("title", BVal.bStr "t"), ("description", BVal.bStr "d"),
          ("user_id", BVal.bStr "1"), ("completed", BVal.bBool false),
          ("_id", BVal.bOid 5)]] =
      (.error ⟨500, "403: Not authorized to delete this task", []⟩,
       [[("title", BVal.bStr "t"), ("description", BVal.bStr "d"),
         ("user_id", BVal.bStr "1"), ("completed", BVal.bBool false),
         ("_id", BVal.bOid 5)]]) :=
  ⟨rfl, rfl, rfl⟩

/-- C2: DELETE /tasks/7 by an authenticated admin when no task with id 7
exists does not answer 404: the handler's own 404 HTTPException is
raised inside its try block and the except Exception clause re-raises it
as a 500 whose detail is the str of the caught exception. -/
theorem C2_admin_delete_missing_task_500 :
    route_delete_task 7
        [("_id", BVal.bOid 1), ("name", BVal.bStr "Root"),
         ("email", BVal.bStr "root@example.com"), ("password", BVal.bHash 0 "pw"),
         ("role", BVal.bStr "admin"), ("isActived", BVal.bBool true)]
        [] =
      (.error ⟨500, "404: Task not found", []⟩, []) :=
  rfl

/-- C3 counterexample: a user concurrently deleted between the find_one
and the update_one of PATCH /users/1/deactivate (the update_one snapshot
is empty, so matched_count is zero) is surfaced as a 500 "Failed to
deactivate user", not as the 404 the claim states. The actor is the user
acting on their own account, so authorization passes. -/
theorem C3_concurrent_delete_gives_500 :
    deactivate_user 1
        [("_id", BVal.bOid 1), ("name", BVal.bStr "Alice"),
         ("email", BVal.bStr "alice@example.com"), ("password", BVal.bHash 0 "pw"),
         ("role", BVal.bStr "viewer"), ("isActived", BVal.bBool true)]
        [[("_id", BVal.bOid 1), ("name", BVal.bStr "Alice"),
          ("email", BVal.bStr "alice@example.com"), ("password", BVal.bHash 0 "pw"),
          ("role", BVal.bStr "viewer"), ("isActived", BVal.bBool true)]]
        [] =
      (.error ⟨500, "Failed to deactivate user", []⟩, []) :=
  rfl

/-- C3 amended: a zero-match store result surfaces as 404 only for
DELETE /users/{id} - delete_user maps a zero deleted_count to a 404
"User not found" - while PATCH /users/{id}/deactivate maps a zero
matched_count (the user was concurrently deleted after the initial
lookup) to a 500 "Failed to deactivate user". -/
theorem C3_zero_match_surface :
    (∀ (user_id : Nat) (cu : Doc) (users : List Doc),
       cu.getV "role" = BVal.bStr "admin" →
       (∀ d ∈ users, matchesFilter d [("_id", BVal.bOid user_id)] = false) →
       delete_user user_id cu users = (.error ⟨404, "User not found", []⟩, users)) ∧
    (∀ (user_id : Nat) (cu user : Doc) (users1 users2 : List Doc),
       findOne users1 [("_id", BVal.bOid user_id)] = some user →
       cu.getV "email" = user.getV "email" →
       (∀ d ∈ users2, matchesFilter d [("_id", BVal.bOid user_id)] = false) →
       deactivate_user user_id cu users1 users2 =
         (.error ⟨500, "Failed to deactivate user", []⟩, users2)) := by
  constructor
  · intro user_id cu users hrole hnone
    simp [delete_user, hrole, deleteOne_none users [("_id", BVal.bOid user_id)] hnone]
  · intro user_id cu user users1 users2 hfind hself hnone
    simp [deactivate_user, hfind, hself,
      updateOne_none users2 [("_id", BVal.bOid user_id)] [("isActived", BVal.bBool false)] hnone]

/-- C3 witness: the amended claim at concrete inputs - an admin deleting
a missing user gets 404, and a self-deactivation whose update_one runs
against a snapshot from which the user has been deleted gets 500. -/
theorem C3_zero_match_surface_witness :
    delete_user 4
        [("_id", BVal.bOid 1), ("name", BVal.bStr "Root"),
         ("email", BVal.bStr "root@example.com"), ("password", BVal.bHash 0 "pw"),
         ("role", BVal.bStr "admin"), ("isActived", BVal.bBool true)]
        [] =
      (.error ⟨404, "User not found", []⟩, []) ∧
    deactivate_user 2
        [("_id", BVal.bOid 2), ("name", BVal.bStr "Bob"),
         ("email", BVal.bStr "bob@example.com"), ("password", BVal.bHash 0 "pw"),
         ("role", BVal.bStr "viewer"), ("isActived", BVal.bBool true)]
        [[("_id", BVal.bOid 2), ("name", BVal.bStr "Bob"),
          ("email", BVal.bStr "bob@example.com"), ("password", BVal.bHash 0 "pw"),
          ("role", BVal.bStr "viewer"), ("isActived", BVal.bBool true)]]
        [] =
      (.error ⟨500, "Failed to deactivate user", []⟩, []) :=
  ⟨C3_zero_match_surface.1 4 _ [] rfl (by decide),
   C3_zero_match_surface.2 2 _
     [("_id", BVal.bOid 2), ("name", BVal.bStr "Bob"),
      ("email", BVal.bStr "bob@example.com"), ("password", BVal.bHash 0 "pw"),
      ("role", BVal.bStr "viewer"), ("isActived", BVal.bBool true)]
     _ [] rfl rfl (by decide)⟩

/-- C4 counterexample: an authenticated admin (ObjectId 1) attempting
DELETE /tasks/9 on an existing task owned by user 2 is not permitted:
the handler requires the stored user_id to equal the admin's raw _id
after the role check, and the resulting 403 is re-raised as a 500 by the
catch-all. -/
theorem C4_nonowner_admin_denied :
    route_delete_task 9
        [("_id", BVal.bOid 1), ("name", BVal.bStr "Root"),
         ("email", BVal.bStr "root@example.com"), ("password", BVal.bHash 0 "pw"),
         ("role", BVal.bStr "admin"), ("isActived", BVal.bBool true)]
        [[("title", BVal.bStr "t"), ("description", BVal.bStr "d"),
          ("user_id", BVal.bStr "2"), ("completed", BVal.bBool false),
          ("_id", BVal.bOid 9)]] =
      (.error ⟨500, "403: Not authorized to delete this task", []⟩,
       [[("title", BVal.bStr "t"), ("description", BVal.bStr "d"),
         ("user_id", BVal.bStr "2"), ("completed", BVal.bBool false),
         ("_id", BVal.bOid 9)]]) :=
  rfl

/-- C4 amended: the admin role is necessary for DELETE /tasks/{id} -
non-admins are denied 403 "Access forbidden" by the role dependency -
but not sufficient: after the role check the handler also requires the
stored task user_id to equal the actor's raw _id, and whenever the
stored user_id is a string and the actor's _id an ObjectId this never
holds, so the request on an existing task is denied with a 500 wrapping
the ownership 403, and the store is unchanged. -/
theorem C4_admin_delete_requires_ownership :
    (∀ (task_id : Nat) (cu : Doc) (tasks : List Doc) (task : Doc) (s : String) (n : Nat),
       cu.getV "role" = BVal.bStr "admin" →
       findOne tasks [("_id", BVal.bOid task_id)] = some task →
       task.getV "user_id" = BVal.bStr s →
       cu.getV "_id" = BVal.bOid n →
       route_delete_task task_id cu tasks =
         (.error ⟨500, "403: Not authorized to delete this task", []⟩, tasks)) ∧
    (∀ (task_id : Nat) (cu : Doc) (tasks : List Doc),
       cu.getV "role" ≠ BVal.bStr "admin" →
       route_delete_task task_id cu tasks = (.error ⟨403, "Access forbidden", []⟩, tasks)) := by
  constructor
  · intro task_id cu tasks task s n hrole hfind hs hn
    have hne : task.getV "user_id" ≠ cu.getV "_id" := by rw [hs, hn]; simp
    have hcr : check_role ["admin"] cu = .ok cu := by simp [check_role, hrole]
    simp only [route_delete_task, hcr]
    simp [delete_task, delete_task_body, hfind, hne, catchAll, herrStr]
    rfl
  · intro task_id cu tasks hrole
    simp [route_delete_task, check_role, hrole]

/-- C4 witness: the amended claim at concrete inputs - the admin of the
counterexample is denied 500 on an existing foreign task, and a viewer
is denied 403 by the role dependency. -/
theorem C4_admin_delete_requires_ownership_witness :
    route_delete_task 9
        [("_id", BVal.bOid 1), ("name", BVal.bStr "Root"),
         ("email", BVal.bStr "root2@example.com"), ("password", BVal.bHash 0 "pw"),
         ("role", BVal.bStr "admin"), ("isActived", BVal.bBool true)]
        [[("title", BVal.bStr "t2"), ("description", BVal.bStr "d2"),
          ("user_id", BVal.bStr "2"), ("completed", BVal.bBool false),
          ("_id", BVal.bOid 9)]] =
      (.error ⟨500, "403: Not authorized to delete this task", []⟩,
       [[("title", BVal.bStr "t2"), ("description", BVal.bStr "d2"),
         ("user_id", BVal.bStr "2"), ("completed", BVal.bBool false),
         ("_id", BVal.bOid 9)]]) ∧
    route_delete_task 9
        [("_id", BVal.bOid 3), ("name", BVal.bStr "Carol"),
         ("email", BVal.bStr "carol@example.com"), ("password", BVal.bHash 0 "pw"),
         ("role", BVal.bStr "viewer"), ("isActived", BVal.bBool true)]
        [] =
      (.error ⟨403, "Access forbidden", []⟩, []) :=
  ⟨C4_admin_delete_requires_ownership.1 9 _ _
     [("title", BVal.bStr "t2"), ("description", BVal.bStr "d2"),
      ("user_id", BVal.bStr "2"), ("completed", BVal.bBool false),
      ("_id", BVal.bOid 9)]
     "2" 1 rfl rfl rfl rfl,
   C4_admin_delete_requires_ownership.2 9 _ [] (by decide)⟩

/-- C5 counterexample: a users-store state reachable through the public
operations in which a password field holds the plaintext secret. The
state arises from POST /users (which hashes) followed by PUT /users/1 by
the owner with a body carrying a password field: update_user applies the
body verbatim, so the stored password field becomes the plaintext string
"hunter2". -/
theorem C5_plaintext_password_stored :
    update_user 1 [("password", BVal.bStr "hunter2")]
        [("name", BVal.bStr "Alice"), ("email", BVal.bStr "alice@example.com"),
         ("password", BVal.bHash 0 "pw1"), ("role", BVal.bStr "viewer"),
         ("isActived", BVal.bBool true), ("_id", BVal.bOid 1)]
        ((create_user ⟨"Alice", "alice@example.com", "pw1", "viewer", true⟩ 0 1 []).2) =
      (.ok "User updated successfully",
       [[("name", BVal.bStr "Alice"), ("email", BVal.bStr "alice@example.com"),
         ("password", BVal.bStr "hunter2"), ("role", BVal.bStr "viewer"),
         ("isActived", BVal.bBool true), ("_id", BVal.bOid 1)]]) :=
  rfl

/-- C5 amended: registration hashes the password before persistence -
the document POST /users stores carries a bcrypt digest in its password
field, never the plaintext - but the invariant is not preserved by every
mutating operation: PUT /users/{id} applies its body verbatim, so a body
carrying a password field stores that plaintext string (see the
counterexample). -/
theorem C5_registration_hashes (body : User) (salt newId : Nat) (users : List Doc)
    (h : findOne users [("email", BVal.bStr body.email)] = none) :
    create_user body salt newId users =
      (.ok ((User.dict body).setField "password" (hash_password salt body.password) ++
              [("_id", BVal.bOid newId)]),
       users ++ [(User.dict body).setField "password" (hash_password salt body.password) ++
            [("_id", BVal.bOid newId)]]) ∧
    Doc.get ((User.dict body).setField "password" (hash_password salt body.password) ++
        [("_id", BVal.bOid newId)]) "password" = some (BVal.bHash salt body.password) ∧
    Doc.get ((User.dict body).setField "password" (hash_password salt body.password) ++
        [("_id", BVal.bOid newId)]) "password" ≠ some (BVal.bStr body.password) := by
  have h2 : Doc.get ((User.dict body).setField "password" (hash_password salt body.password) ++
      [("_id", BVal.bOid newId)]) "password" = some (BVal.bHash salt body.password) := by
    simp [Doc.get_append, Doc.get_setField_self, hash_password]
  refine ⟨by simp [create_user, h], h2, ?_⟩
  rw [h2]
  simp

/-- C5 witness: the amended claim at a concrete registration: the
created document stores a digest in its password field, not the
plaintext. -/
theorem C5_registration_hashes_witness :
    create_user ⟨"Dave", "dave@example.com", "pw9", "editor", true⟩ 3 7 [] =
      (.ok ((User.dict ⟨"Dave", "dave@example.com", "pw9", "editor", true⟩).setField
              "password" (hash_password 3 "pw9") ++ [("_id", BVal.bOid 7)]),
       [] ++ [(User.dict ⟨"Dave", "dave@example.com", "pw9", "editor", true⟩).setField
            "password" (hash_password 3 "pw9") ++ [("_id", BVal.bOid 7)]]) ∧
    Doc.get ((User.dict ⟨"Dave", "dave@example.com", "pw9", "editor", true⟩).setField
        "password" (hash_password 3 "pw9") ++ [("_id", BVal.bOid 7)]) "password" =
      some (BVal.bHash 3 "pw9") ∧
    Doc.get ((User.dict ⟨"Dave", "dave@example.com", "pw9", "editor", true⟩).setField
        "password" (hash_password 3 "pw9") ++ [("_id", BVal.bOid 7)]) "password" ≠
      some (BVal.bStr "pw9") :=
  C5_registration_hashes ⟨"Dave", "dave@example.com", "pw9", "editor", true⟩ 3 7 [] rfl

/-- C6: a token issued at time now with time-to-live ttl verifies
successfully at every instant t before now + ttl, deterministically
fails as expired at every instant from now + ttl on, and presenting a
token past its expiry to GET /users/me yields the 401
credentials_exception whatever the users store holds. -/
theorem C6_token_expiry :
    (∀ (data : Option BVal) (now ttl t : Nat), t < now + ttl →
       jwt_decode (create_access_token data now (some ttl)) t = .ok (data, now + ttl)) ∧
    (∀ (data : Option BVal) (now ttl t : Nat), now + ttl ≤ t →
       jwt_decode (create_access_token data now (some ttl)) t = .error .expired) ∧
    (∀ (token : JoseToken) (t : Nat) (users : List Doc), token.exp ≤ t →
       route_users_me token t users = .error credentials_exception ∧
       credentials_exception.status = 401) := by
  refine ⟨?_, ?_, ?_⟩
  · intro data now ttl t ht
    simp [jwt_decode, create_access_token, Nat.not_le.mpr ht]
  · intro data now ttl t ht
    simp [jwt_decode, create_access_token, ht]
  · intro token t users ht
    refine ⟨?_, rfl⟩
    cases hi : token.intact with
    | false => simp [route_users_me, get_current_user, jwt_decode, hi]
    | true => simp [route_users_me, get_current_user, jwt_decode, hi, ht]

/-- C6 witness: a token issued at 100 with ttl 60 decodes at 120, is
expired at 160 with the structured expired reason, and at 200 the
GET /users/me route answers the 401 credentials_exception. -/
theorem C6_token_expiry_witness :
    jwt_decode (create_access_token (some (BVal.bStr "alice@example.com")) 100 (some 60)) 120 =
      .ok (some (BVal.bStr "alice@example.com"), 160) ∧
    jwt_decode (create_access_token (some (BVal.bStr "alice@example.com")) 100 (some 60)) 160 =
      .error .expired ∧
    route_users_me (create_access_token (some (BVal.bStr "alice@example.com")) 100 (some 60))
        200 [] = .error credentials_exception ∧
    credentials_exception.status = 401 :=
  ⟨C6_token_expiry.1 (some (BVal.bStr "alice@example.com")) 100 60 120 (by decide),
   C6_token_expiry.2.1 (some (BVal.bStr "alice@example.com")) 100 60 160 (by decide),
   C6_token_expiry.2.2 (create_access_token (some (BVal.bStr "alice@example.com")) 100 (some 60))
     200 [] (by decide)⟩

/-- C7: identity resolution fails closed. A correctly signed, unexpired
token whose sub claim references no user in the store produces exactly
the credentials_exception - the same 401 status, detail message and
WWW-Authenticate header - that an invalid (tampered or bad-signature)
token produces, so the orphan-token case is indistinguishable from the
invalid-token case. -/
theorem C7_orphan_token_fails_closed :
    (∀ (token : JoseToken) (now : Nat) (users : List Doc) (e : BVal),
       token.intact = true → now < token.exp → token.sub = some e →
       findOne users [("email", e)] = none →
       get_current_user token now users = .error credentials_exception) ∧
    (∀ (token : JoseToken) (now : Nat) (users : List Doc),
       token.intact = false →
       get_current_user token now users = .error credentials_exception) := by
  constructor
  · intro token now users e hi ht hs hfind
    simp [get_current_user, jwt_decode, hi, Nat.not_le.mpr ht, hs, hfind]
  · intro token now users hi
    simp [get_current_user, jwt_decode, hi]

/-- C7 witness: a well-signed unexpired token for a deleted account and
a tampered token, evaluated against an empty store, both yield the
credentials_exception. -/
theorem C7_orphan_token_fails_closed_witness :
    get_current_user ⟨some (BVal.bStr "ghost@example.com"), 100, true⟩ 10 [] =
      .error credentials_exception ∧
    get_current_user ⟨some (BVal.bStr "ghost@example.com"), 100, false⟩ 10 [] =
      .error credentials_exception :=
  ⟨C7_orphan_token_fails_closed.1 ⟨some (BVal.bStr "ghost@example.com"), 100, true⟩ 10 []
     (BVal.bStr "ghost@example.com") rfl (by decide) rfl rfl,
   C7_orphan_token_fails_closed.2 ⟨some (BVal.bStr "ghost@example.com"), 100, false⟩ 10 [] rfl⟩

/-- C8: PUT /users/{id} applies the whole request body through an
unrestricted $set. For a non-admin actor whose email matches the target
document (self-service) and any body with pairwise distinct keys, the
request succeeds and the stored document becomes the old document
overwritten with exactly the body's fields: a field mentioned by the
body takes the body's value, every other field keeps its old value; in
particular a body setting role to admin makes the stored role admin. -/
theorem C8_update_user_unrestricted_set
    (user_id : Nat) (body cu user : Doc) (pre post : List Doc)
    (hpre : ∀ d ∈ pre, matchesFilter d [("_id", BVal.bOid user_id)] = false)
    (hmatch : matchesFilter user [("_id", BVal.bOid user_id)] = true)
    (hself : cu.getV "email" = user.getV "email")
    (hrole : cu.getV "role" ≠ BVal.bStr "admin")
    (hnodup : (body.map Prod.fst).Nodup) :
    update_user user_id body cu (pre ++ user :: post) =
      (.ok "User updated successfully", pre ++ user.applySet body :: post) ∧
    (∀ k, (user.applySet body).get k =
        match Doc.get body k with
        | some v => some v
        | none => Doc.get user k) ∧
    (user.applySet [("role", BVal.bStr "admin")]).get "role" = some (BVal.bStr "admin") := by
  have hfind : findOne (pre ++ user :: post) [("_id", BVal.bOid user_id)] = some user := by
    rw [findOne_append, findOne_eq_none pre _ hpre, findOne_cons, if_pos hmatch]
  have hupd : updateOne (pre ++ user :: post) [("_id", BVal.bOid user_id)] body =
      (pre ++ user.applySet body :: post, 1) := by
    rw [updateOne_skip pre _ _ _ hpre, updateOne_cons, if_pos hmatch]
  refine ⟨?_, fun k => Doc.get_applySet user body k hnodup, ?_⟩
  · simp [update_user, hfind, hself, hupd]
  · rw [Doc.applySet_cons, Doc.applySet_nil, Doc.get_setField_self]

/-- C8 witness: the viewer Alice, acting on her own profile, sends PUT
/users/1 with the body setting role to admin; the request succeeds and
the stored role becomes admin. -/
theorem C8_update_user_unrestricted_set_witness :
    update_user 1 [("role", BVal.bStr "admin")]
        [("name", BVal.bStr "Alice"), ("email", BVal.bStr "alice@example.com"),
         ("password", BVal.bHash 0 "pw1"), ("role", BVal.bStr "viewer"),
         ("isActived", BVal.bBool true), ("_id", BVal.bOid 1)]
        ([] ++
          [("name", BVal.bStr "Alice"), ("email", BVal.bStr "alice@example.com"),
           ("password", BVal.bHash 0 "pw1"), ("role", BVal.bStr "viewer"),
           ("isActived", BVal.bBool true), ("_id", BVal.bOid 1)] :: []) =
      (.ok "User updated successfully",
       [] ++
         Doc.applySet
           [("name", BVal.bStr "Alice"), ("email", BVal.bStr "alice@example.com"),
            ("password", BVal.bHash 0 "pw1"), ("role", BVal.bStr "viewer"),
            ("isActived", BVal.bBool true), ("_id", BVal.bOid 1)]
           [("role", BVal.bStr "admin")] :: []) ∧
    (Doc.applySet
        [("name", BVal.bStr "Alice"), ("email", BVal.bStr "alice@example.com"),
         ("password", BVal.bHash 0 "pw1"), ("role", BVal.bStr "viewer"),
         ("isActived", BVal.bBool true), ("_id", BVal.bOid 1)]
        [("role", BVal.bStr "admin")]).get "role" = some (BVal.bStr "admin") :=
  ⟨(C8_update_user_unrestricted_set 1 [("role", BVal.bStr "admin")]
      [("name", BVal.bStr "Alice"), ("email", BVal.bStr "alice@example.com"),
       ("password", BVal.bHash 0 "pw1"), ("role", BVal.bStr "viewer"),
       ("isActived", BVal.bBool true), ("_id", BVal.bOid 1)]
      [("name", BVal.bStr "Alice"), ("email", BVal.bStr "alice@example.com"),
       ("password", BVal.bHash 0 "pw1"), ("role", BVal.bStr "viewer"),
       ("isActived", BVal.bBool true), ("_id", BVal.bOid 1)]
      [] [] (by decide) (by decide) rfl (by decide) (by decide)).1,
   (C8_update_user_unrestricted_set 1 [("role", BVal.bStr "admin")]
      [("name", BVal.bStr "Alice"), ("email", BVal.bStr "alice@example.com"),
       ("password", BVal.bHash 0 "pw1"), ("role", BVal.bStr "viewer"),
       ("isActived", BVal.bBool true), ("_id", BVal.bOid 1)]
      [("name", BVal.bStr "Alice"), ("email", BVal.bStr "alice@example.com"),
       ("password", BVal.bHash 0 "pw1"), ("role", BVal.bStr "viewer"),
       ("isActived", BVal.bBool true), ("_id", BVal.bOid 1)]
      [] [] (by decide) (by decide) rfl (by decide) (by decide)).2.2⟩

/-- find_one against a store whose middle document has one field set to
a new value, filtered on a different field: either the lookup result is
the same document on both stores, or both lookups hit the modified
document. -/
theorem findOne_setField_mid (pre post : List Doc) (u : Doc) (k q : String) (v w : BVal)
    (h : q ≠ k) :
    findOne (pre ++ u.setField k v :: post) [(q, w)] = findOne (pre ++ u :: post) [(q, w)] ∨
    (findOne (pre ++ u :: post) [(q, w)] = some u ∧
     findOne (pre ++ u.setField k v :: post) [(q, w)] = some (u.setField k v)) := by
  rw [findOne_append, findOne_append]
  cases hpre : findOne pre [(q, w)] with
  | some d => left; rfl
  | none =>
    have hm : matchesFilter (u.setField k v) [(q, w)] = matchesFilter u [(q, w)] := by
      rw [matchesFilter_single, matchesFilter_single, Doc.get_setField_other u k v q h]
    by_cases hmu : matchesFilter u [(q, w)] = true
    · right
      constructor
      · simp [findOne_cons, hmu]
      · simp [findOne_cons, hm, hmu]
    · left
      simp [findOne_cons, hm, hmu]

/-- C9: the isActived field has no influence on authentication. For any
two stores that differ only in one user document's isActived value,
POST /token behaves identically - the same outcome, token included, for
every submitted credential pair - and get_current_user accepts and
rejects identically for every presented token, so a deactivated user
still obtains tokens and passes authentication. -/
theorem C9_isActived_no_auth_influence :
    ∀ (pre post : List Doc) (u : Doc) (b : Bool) (username password : String)
      (now : Nat) (token : JoseToken),
      login_for_access_token username password (pre ++ u :: post) now =
        login_for_access_token username password
          (pre ++ u.setField "isActived" (BVal.bBool b) :: post) now ∧
      Except.map (fun _ => ())
          (get_current_user token now (pre ++ u :: post)) =
        Except.map (fun _ => ())
          (get_current_user token now (pre ++ u.setField "isActived" (BVal.bBool b) :: post)) := by
  intro pre post u b username password now token
  have hpw : (u.setField "isActived" (BVal.bBool b)).getV "password" = u.getV "password" := by
    unfold Doc.getV
    rw [Doc.get_setField_other u "isActived" (BVal.bBool b) "password" (by decide)]
  have hem : (u.setField "isActived" (BVal.bBool b)).getV "email" = u.getV "email" := by
    unfold Doc.getV
    rw [Doc.get_setField_other u "isActived" (BVal.bBool b) "email" (by decide)]
  constructor
  · rcases findOne_setField_mid pre post u "isActived" "email" (BVal.bBool b)
        (BVal.bStr username) (by decide) with h | ⟨h1, h2⟩
    · unfold login_for_access_token
      rw [h]
    · unfold login_for_access_token
      rw [h1, h2]
      simp only [hpw, hem]
  · cases hdec : jwt_decode token now with
    | error e => simp [get_current_user, hdec]
    | ok payload =>
      obtain ⟨sub, expv⟩ := payload
      cases sub with
      | none => simp [get_current_user, hdec]
      | some e =>
        rcases findOne_setField_mid pre post u "isActived" "email" (BVal.bBool b) e
            (by decide) with h | ⟨h1, h2⟩
        · simp [get_current_user, hdec, h]
        · simp [get_current_user, hdec, h1, h2]
          rfl

/-- C10: GET /tasks/{id} is strictly owner-scoped for every requester,
admins included. Whenever some task with the requested id exists but no
document with that id carries user_id equal to the string rendering of
the requester's _id, the response is the 404 "Task not found or not
authorized" - identical to the task being absent, never a 403 - for
every requester document, whatever its role. -/
theorem C10_get_task_owner_scoped (task_id : Nat) (cu : Doc) (tasks : List Doc)
    (hex : ∃ t ∈ tasks, Doc.get t "_id" = some (BVal.bOid task_id))
    (hown : ∀ d ∈ tasks, Doc.get d "_id" = some (BVal.bOid task_id) →
       Doc.get d "user_id" ≠ some (BVal.bStr (bvalStr (cu.getV "_id")))) :
    get_task task_id cu tasks = .error ⟨404, "Task not found or not authorized", []⟩ := by
  have hnone : findOne tasks [("_id", BVal.bOid task_id),
      ("user_id", BVal.bStr (bvalStr (cu.getV "_id")))] = none := by
    refine findOne_eq_none _ _ (fun d hd => ?_)
    rw [matchesFilter_pair]
    by_cases hid : Doc.get d "_id" = some (BVal.bOid task_id)
    · simp [hown d hd hid]
    · simp [hid]
  simp [get_task, hnone]

/-- C10 witness: an admin requesting GET /tasks/9 on an existing task
owned by user 2 receives the 404. -/
theorem C10_get_task_owner_scoped_witness :
    get_task 9
        [("_id", BVal.bOid 1), ("name", BVal.bStr "Root"),
         ("email", BVal.bStr "root@example.com"), ("password", BVal.bHash 0 "pw"),
         ("role", BVal.bStr "admin"), ("isActived", BVal.bBool true)]
        [[("title", BVal.bStr "t"), ("description", BVal.bStr "d"),
          ("user_id", BVal.bStr "2"), ("completed", BVal.bBool false),
          ("_id", BVal.bOid 9)]] =
      .error ⟨404, "Task not found or not authorized", []⟩ :=
  C10_get_task_owner_scoped 9 _ _ (by decide) (by decide)

end PyBack
